import Mathlib

/-!
Shallow embedding of the snapshot-report aggregation core of
`plugins/modules/report.py` (nttmcp snapshot_report Ansible collection).

The embedded part is the pure aggregation pipeline of `main` (lines 175-241):
filtering the server list down to servers with the snapshot service enabled,
classifying each such server's snapshots, and building the four record sets
(per-server report rows, failed-server records, failed-snapshot records,
run-wide totals).  External collaborators (API client, credential handling,
Jinja2 rendering, filesystem) are out of scope and are represented by the
`snapshot_source` parameter, exactly as the spec's §6 interfaces describe.

Python dictionary lookups `d.get(k)` are modelled with `Option`;
`d.get(k, default)` with `Option.getD`.  A caught exception from the snapshot
source is an `Except.error` of the source; an uncaught Python exception
(`IndexError` from `list.pop()` on an empty list, `TypeError` from comparing
`None` with a string during `list.sort`) aborts the whole run and is modelled
as the `Except.error` result of the run itself.
-/

/-- The `snapshotService` sub-dictionary of a raw server record. -/
structure SnapshotService where
  replicationTargetDatacenterId : Option String
  servicePlan : Option String
  state : Option String
deriving DecidableEq, Repr

/-- The `operatingSystem` sub-dictionary of a raw server's `guest` record. -/
structure OperatingSystem where
  family : Option String
deriving DecidableEq, Repr

/-- The `guest` sub-dictionary of a raw server record. -/
structure Guest where
  operatingSystem : Option OperatingSystem
deriving DecidableEq, Repr

/-- A raw server record as returned by `client.list_servers`. -/
structure Server where
  name : Option String
  id : Option String
  snapshotService : Option SnapshotService
  guest : Option Guest
deriving DecidableEq, Repr

/-- A raw snapshot record as returned by `client.list_snapshot`.  The
`replica` key is modelled as a `Bool`: the code reads it with
`snapshot.get('replica', False)` (line 205) and `snapshot.get('replica')`
(lines 221/223), which coincide on boolean-or-absent values. -/
structure Snapshot where
  id : Option String
  startTime : Option String
  state : Option String
  type : Option String
  consistencyLevel : Option String
  indexState : Option String
  replica : Bool
deriving DecidableEq, Repr

/-- An element of `servers_w_snapshots` (report.py lines 180-187). -/
structure SrvW where
  name : Option String
  id : Option String
  replication : Bool
  plan : Option String
  state : Option String
  family : Option String
deriving DecidableEq, Repr

/-- An element of `failed_servers` (report.py lines 198 and 240). -/
structure FailedServer where
  name : Option String
  id : Option String
  error : String
deriving DecidableEq, Repr

/-- An element of `failed_snapshots` (report.py lines 209-219). -/
structure FailedSnapshot where
  server : Option String
  server_id : Option String
  snapshot : Option String
  consistency : String
  state : String
  index : String
  start : String
  replica : Bool
  family : Option String
deriving DecidableEq, Repr

/-- An element of `snapshot_report` (report.py lines 228-238).  `local` is a
Lean keyword, so the field keeps the loop variable's name `local_snapshot`. -/
structure ReportRow where
  name : Option String
  id : Option String
  replication : Bool
  count : Nat
  failed : Nat
  local_snapshot : Nat
  remote_snapshot : Nat
  last : Option String
  last_state : Option String
deriving DecidableEq, Repr

/-- A Python exception that `main` does not catch: `IndexError` from
`list.pop()` on an empty list, `TypeError` from `list.sort` comparing `None`
with a string. -/
inductive PyError where
  | indexError
  | typeError
deriving DecidableEq, Repr

/-- The mutable aggregation variables of `main` (report.py lines 133-142):
the single `snapshot_dates` list of `(startTime, state)` pairs is initialised
once, before the per-server loop. -/
structure RState where
  failed_servers : List FailedServer
  failed_snapshots : List FailedSnapshot
  snapshot_report : List ReportRow
  total_snapshots : Nat
  total_replica_snapshots : Nat
  snapshot_dates : List (Option String × Option String)
deriving DecidableEq, Repr

/-- The initial aggregation variables (report.py lines 135-142). -/
def initState : RState :=
  { failed_servers := []
    failed_snapshots := []
    snapshot_report := []
    total_snapshots := 0
    total_replica_snapshots := 0
    snapshot_dates := [] }

/-- The server filter (report.py lines 178-187): one pass over the server
list, appending a derived record for each server whose `snapshotService`
dictionary is present. -/
def servers_w_snapshots (servers : List Server) : List SrvW :=
  servers.foldl
    (fun acc server =>
      if server.snapshotService.isSome then
        acc ++ [{ name := server.name
                  id := server.id
                  replication :=
                    (server.snapshotService.bind
                      SnapshotService.replicationTargetDatacenterId).isSome
                  plan := server.snapshotService.bind SnapshotService.servicePlan
                  state := server.snapshotService.bind SnapshotService.state
                  family := (server.guest.bind Guest.operatingSystem).bind
                    OperatingSystem.family }]
      else acc)
    []

/-- The anomalous-snapshot record built at report.py lines 209-219: optional
snapshot fields default to the string sentinel `N/A`. -/
def mkFailedSnapshot (srv : SrvW) (snap : Snapshot) : FailedSnapshot :=
  { server := srv.name
    server_id := srv.id
    snapshot := snap.id
    consistency := snap.consistencyLevel.getD "N/A"
    state := snap.state.getD "N/A"
    index := snap.indexState.getD "N/A"
    start := snap.startTime.getD "N/A"
    replica := snap.replica
    family := srv.family }

/-- The per-server loop variables of report.py lines 191-194 together with the
global state they update. -/
structure ClassifyAcc where
  server_failed_snapshots : Nat
  local_snapshot : Nat
  remote_snapshot : Nat
  st : RState
deriving DecidableEq, Repr

/-- One iteration of the snapshot loop (report.py lines 202-225): a
non-replica snapshot is appended to the `snapshot_dates` candidate list; a
snapshot whose state is not `NORMAL` increments the per-server failure counter
and emits an anomalous-snapshot record; otherwise a `SYSTEM` snapshot is
counted as local or remote (the latter also incrementing the run-wide replica
total). -/
def stepSnapshot (srv : SrvW) (acc : ClassifyAcc) (snap : Snapshot) : ClassifyAcc :=
  let acc :=
    if !snap.replica then
      { acc with st := { acc.st with
          snapshot_dates := acc.st.snapshot_dates ++ [(snap.startTime, snap.state)] } }
    else acc
  if snap.state ≠ some "NORMAL" then
    { acc with
        server_failed_snapshots := acc.server_failed_snapshots + 1
        st := { acc.st with
          failed_snapshots := acc.st.failed_snapshots ++ [mkFailedSnapshot srv snap] } }
  else if snap.type = some "SYSTEM" ∧ !snap.replica then
    { acc with local_snapshot := acc.local_snapshot + 1 }
  else if snap.type = some "SYSTEM" ∧ snap.replica then
    { acc with
        remote_snapshot := acc.remote_snapshot + 1
        st := { acc.st with
          total_replica_snapshots := acc.st.total_replica_snapshots + 1 } }
  else acc

/-- The snapshot loop of report.py lines 202-225. -/
def classifyLoop (srv : SrvW) (snaps : List Snapshot) (acc : ClassifyAcc) : ClassifyAcc :=
  snaps.foldl (stepSnapshot srv) acc

/-- Stable insertion of `a` into `l`, placing `a` before the first element `b`
with `lt a b` and after every earlier element: folding this over a list from
the left reproduces the output of Python's stable ascending `list.sort`. -/
def pyInsert (lt : α → α → Bool) (a : α) : List α → List α
  | [] => [a]
  | b :: l => if lt a b then a :: b :: l else b :: pyInsert lt a l

/-- Stable ascending sort with strict comparison `lt`, equal to Python's
`list.sort` for any strict weak order. -/
def pyStableSort (lt : α → α → Bool) (l : List α) : List α :=
  l.foldl (fun acc a => pyInsert lt a acc) []

/-- Python's `<` on characters: comparison of Unicode code points. -/
def pyCharsLt : List Char → List Char → Bool
  | _, [] => false
  | [], _ :: _ => true
  | a :: as, b :: bs =>
    if a.toNat < b.toNat then true
    else if b.toNat < a.toNat then false
    else pyCharsLt as bs

/-- Python's `<` on strings: lexicographic comparison by code points. -/
def pyStrLt (a b : String) : Bool := pyCharsLt a.data b.data

/-- Python's `<` on the sort keys of report.py line 227: the key
`tmp_tuple[1]` is the snapshot state.  Comparing `None` with a string raises
`TypeError`; `pySortByState` only uses this function when every key is a
string. -/
def stateKeyLt : Option String × Option String → Option String × Option String → Bool
  | (_, some a), (_, some b) => pyStrLt a b
  | _, _ => false

/-- The sort at report.py line 227: `snapshot_dates.sort(key=lambda
tmp_tuple: tmp_tuple[1])`, i.e. a stable ascending sort keyed on the state
component.  On a list of two or more pairs any `None` key is compared with
another key and raises an uncaught `TypeError`; a list of at most one element
involves no comparison. -/
def pySortByState (l : List (Option String × Option String)) :
    Except PyError (List (Option String × Option String)) :=
  if l.length ≤ 1 then .ok l
  else if l.all (fun p => p.2.isSome) then .ok (pyStableSort stateKeyLt l)
  else .error .typeError

/-- Python's `list.pop()`: removes and returns the last element, raising
`IndexError` (here `none`) on an empty list. -/
def popLast (l : List α) : Option (α × List α) :=
  match l.getLast? with
  | none => none
  | some a => some (a, l.dropLast)

/-- The `snapshot_report.append` at report.py lines 228-238.  The dictionary
literal evaluates `'last': snapshot_dates.pop()[0]` first and
`'last_state': snapshot_dates.pop()[1]` second: two destructive pops, so the
reported state is read from the entry before the one the timestamp was read
from.  A pop from an empty list raises an uncaught `IndexError`. -/
def appendRow (srv : SrvW) (snapshot_count server_failed_snapshots local_snapshot
    remote_snapshot : Nat) (st : RState) : Except PyError RState :=
  match popLast st.snapshot_dates with
  | none => .error .indexError
  | some (p1, rest1) =>
    match popLast rest1 with
    | none => .error .indexError
    | some (p2, rest2) =>
      .ok { st with
            snapshot_dates := rest2
            snapshot_report := st.snapshot_report ++
              [{ name := srv.name
                 id := srv.id
                 replication := srv.replication
                 count := snapshot_count
                 failed := server_failed_snapshots
                 local_snapshot := local_snapshot
                 remote_snapshot := remote_snapshot
                 last := p1.1
                 last_state := p2.2 }] }

/-- The snapshot source (report.py line 196, `client.list_snapshot`): takes
the server id, and either raises an API exception (caught at line 239, the
`Except.error` case), returns `None` (no data), or returns the snapshot
list. -/
def SnapSource : Type := Option String → Except String (Option (List Snapshot))

/-- One iteration of the per-server loop (report.py lines 190-240).  A caught
source exception appends a failed-server record and skips the rest of the
iteration.  When the source returns `None` a failed-server record with error
`N/A` is appended, and — the `snapshot_report.append` at line 228 sitting
outside the `else` branch — the row append still runs.  Otherwise the
snapshot list is classified, `snapshot_dates` is sorted by state, and the row
append runs.  `IndexError`/`TypeError` are not caught and abort the run. -/
def processServer (src : SnapSource) (st : RState) (srv : SrvW) : Except PyError RState :=
  match src srv.id with
  | .error e =>
      .ok { st with failed_servers :=
              st.failed_servers ++ [{ name := srv.name, id := srv.id, error := e }] }
  | .ok none =>
      let st1 := { st with failed_servers :=
              st.failed_servers ++ [{ name := srv.name, id := srv.id, error := "N/A" }] }
      appendRow srv 0 0 0 0 st1
  | .ok (some snaps) =>
      let acc := classifyLoop srv snaps
        ⟨0, 0, 0, { st with total_snapshots := st.total_snapshots + snaps.length }⟩
      match pySortByState acc.st.snapshot_dates with
      | .error e => .error e
      | .ok sorted =>
          appendRow srv snaps.length acc.server_failed_snapshots acc.local_snapshot
            acc.remote_snapshot { acc.st with snapshot_dates := sorted }

/-- The run's outputs: the totals reported by `exit_json` and the four record
sets handed to the report templates (report.py lines 259-269 and 277). -/
structure Report where
  servers : Nat
  snapshot_servers : Nat
  total_snapshots : Nat
  total_replica_snapshots : Nat
  snapshot_report : List ReportRow
  failed_servers : List FailedServer
  failed_snapshots : List FailedSnapshot
deriving DecidableEq, Repr

/-- The aggregation core of `main` (report.py lines 175-241): count the
servers, filter to those with the snapshot service, process each in input
order.  An uncaught Python exception aborts the whole run. -/
def runCore (servers : List Server) (src : SnapSource) : Except PyError Report := do
  let eligible := servers_w_snapshots servers
  let final ← eligible.foldlM (processServer src) initState
  pure { servers := servers.length
         snapshot_servers := eligible.length
         total_snapshots := final.total_snapshots
         total_replica_snapshots := final.total_replica_snapshots
         snapshot_report := final.snapshot_report
         failed_servers := final.failed_servers
         failed_snapshots := final.failed_snapshots }

/-- The spec's Server Filter contract (`filter_eligible`, spec §4.1), stated
in the spec's words: a server is eligible iff its snapshot-service descriptor
is present; `has_replication` is the presence of a non-null
replication-target-datacenter id inside that descriptor; output preserves
input order; missing optional sub-fields never cause a failure.  Used as the
comparison point for the refinement claim about the server filter. -/
def filter_eligible (servers : List Server) : List SrvW :=
  servers.filterMap fun s =>
    s.snapshotService.map fun svc =>
      { name := s.name
        id := s.id
        replication := svc.replicationTargetDatacenterId.isSome
        plan := svc.servicePlan
        state := svc.state
        family := (s.guest.bind Guest.operatingSystem).bind OperatingSystem.family }

/-! Concrete input fixtures used to evaluate the embedded pipeline. -/

/-- A snapshot-service descriptor with no replication target. -/
def svc0 : SnapshotService :=
  { replicationTargetDatacenterId := none, servicePlan := some "ONE_MONTH",
    state := some "NORMAL" }

/-- A non-replica `SYSTEM` snapshot with the given start time and state. -/
def mkSnap (t st : String) : Snapshot :=
  { id := some ("snap-" ++ t), startTime := some t, state := some st,
    type := some "SYSTEM", consistencyLevel := some "CRASH",
    indexState := some "INDEX", replica := false }

/-- Server A, snapshot service enabled. -/
def srvA : Server :=
  { name := some "A", id := some "A", snapshotService := some svc0, guest := none }

/-- Server B, snapshot service enabled. -/
def srvB : Server :=
  { name := some "B", id := some "B", snapshotService := some svc0, guest := none }

/-- Two non-replica snapshots: the later timestamp has state `NORMAL`, the
earlier timestamp has state `REQUESTED` (a failure state that sorts after
`NORMAL`). -/
def c2snaps : List Snapshot :=
  [mkSnap "2023-03-01" "NORMAL", mkSnap "2023-01-01" "REQUESTED"]

/-- Snapshot source returning `c2snaps` for every server. -/
def c2src : SnapSource := fun _ => .ok (some c2snaps)

/-- Four healthy non-replica snapshots with increasing timestamps. -/
def fourSnaps : List Snapshot :=
  [mkSnap "2023-01-01" "NORMAL", mkSnap "2023-01-02" "NORMAL",
   mkSnap "2023-01-03" "NORMAL", mkSnap "2023-01-04" "NORMAL"]

/-- Snapshot source: four snapshots for server A, no data (`None`) for any
other server. -/
def c1src : SnapSource :=
  fun i => if i = some "A" then .ok (some fourSnaps) else .ok none

/-- Snapshot source: four snapshots for server A, an empty snapshot list for
any other server. -/
def c3src : SnapSource :=
  fun i => if i = some "A" then .ok (some fourSnaps) else .ok (some [])

/-- Snapshot source returning no data (`None`) for every server. -/
def c4src : SnapSource := fun _ => .ok none

/-- A healthy replica `SYSTEM` snapshot. -/
def replicaOnly : Snapshot :=
  { id := some "r1", startTime := some "2023-05-01", state := some "NORMAL",
    type := some "SYSTEM", consistencyLevel := none, indexState := none,
    replica := true }

/-- Snapshot source returning a single replica snapshot for every server. -/
def c5src : SnapSource := fun _ => .ok (some [replicaOnly])

/-- A snapshot-service descriptor with every optional sub-field absent. -/
def svcEmpty : SnapshotService :=
  { replicationTargetDatacenterId := none, servicePlan := none, state := none }

/-- A server with the snapshot service enabled but no plan, state or guest
OS information. -/
def srvNoSub : Server :=
  { name := some "C", id := some "C", snapshotService := some svcEmpty, guest := none }

/-- The eligible-server record the filter derives from `srvNoSub`. -/
def recNoSub : SrvW :=
  { name := some "C", id := some "C", replication := false,
    plan := none, state := none, family := none }

/-- A snapshot-service descriptor with a plan but no state. -/
def svcPartial : SnapshotService :=
  { replicationTargetDatacenterId := none, servicePlan := some "ONE_MONTH",
    state := none }

/-- A server whose descriptor has only some optional sub-fields: the plan is
present, the state and the guest OS information are missing. -/
def srvPartial : Server :=
  { name := some "D", id := some "D", snapshotService := some svcPartial,
    guest := none }

/-- An eligible-server record used as input to the per-server loop. -/
def wsrv : SrvW :=
  { name := some "A", id := some "A", replication := false,
    plan := some "ONE_MONTH", state := some "NORMAL", family := none }

/-- Two non-replica snapshots for the count-consistency witness: one healthy
`SYSTEM` snapshot and one failed snapshot. -/
def c9snaps : List Snapshot :=
  [mkSnap "2023-01-01" "NORMAL", mkSnap "2023-01-02" "FAILED"]

/-- Snapshot source returning `c9snaps` for every server. -/
def c9src : SnapSource := fun _ => .ok (some c9snaps)

/-- The state produced by processing `wsrv` with `c9src` from the initial
state. -/
def c9out : RState :=
  { failed_servers := []
    failed_snapshots := [{ server := some "A", server_id := some "A",
                           snapshot := some "snap-2023-01-02",
                           consistency := "CRASH", state := "FAILED",
                           index := "INDEX", start := "2023-01-02",
                           replica := false, family := none }]
    snapshot_report := [{ name := some "A", id := some "A", replication := false,
                          count := 2, failed := 1, local_snapshot := 1,
                          remote_snapshot := 0, last := some "2023-01-01",
                          last_state := some "FAILED" }]
    total_snapshots := 2
    total_replica_snapshots := 0
    snapshot_dates := [] }

/-- A classification accumulator with all counters at zero. -/
def c8acc : ClassifyAcc :=
  { server_failed_snapshots := 0, local_snapshot := 0, remote_snapshot := 0,
    st := initState }

/-- A healthy replica `SYSTEM` snapshot for the replica-accounting witness. -/
def c8snap : Snapshot :=
  { id := some "r2", startTime := some "2023-06-01", state := some "NORMAL",
    type := some "SYSTEM", consistencyLevel := none, indexState := none,
    replica := true }

/-- A state whose candidate list holds two entries, for the double-pop
witness. -/
def c10st : RState :=
  { initState with
    snapshot_dates := [(some "2023-01-01", some "NORMAL"),
                       (some "2023-01-02", some "FAILED")] }

/-! Helper lemmas about the embedded operations. -/

/-- Popping the last element of a non-empty list returns that element and the
remainder. -/
lemma popLast_concat (l : List α) (a : α) : popLast (l ++ [a]) = some (a, l) := by
  simp [popLast, List.getLast?_concat, List.dropLast_concat]

/-- Field-level description of one snapshot-loop iteration: the report and
failed-server lists and the snapshot total are untouched; the per-server
failure counter and the anomaly list grow exactly on a non-`NORMAL` state;
the three per-server counters grow by at most one in total. -/
lemma stepSnapshot_fields (srv : SrvW) (acc : ClassifyAcc) (snap : Snapshot) :
    (stepSnapshot srv acc snap).st.snapshot_report = acc.st.snapshot_report ∧
    (stepSnapshot srv acc snap).st.failed_servers = acc.st.failed_servers ∧
    (stepSnapshot srv acc snap).st.total_snapshots = acc.st.total_snapshots ∧
    (stepSnapshot srv acc snap).server_failed_snapshots
      = acc.server_failed_snapshots + (if snap.state ≠ some "NORMAL" then 1 else 0) ∧
    (stepSnapshot srv acc snap).st.failed_snapshots
      = acc.st.failed_snapshots ++
          (if snap.state ≠ some "NORMAL" then [mkFailedSnapshot srv snap] else []) ∧
    (stepSnapshot srv acc snap).local_snapshot + (stepSnapshot srv acc snap).remote_snapshot
        + (stepSnapshot srv acc snap).server_failed_snapshots
      ≤ acc.local_snapshot + acc.remote_snapshot + acc.server_failed_snapshots + 1 := by
  unfold stepSnapshot
  by_cases hs : snap.state = some "NORMAL" <;>
  by_cases hr : snap.replica <;>
  by_cases ht : snap.type = some "SYSTEM" <;>
  simp [hs, hr, ht] <;> omega

/-- Loop-level description of the snapshot classification of one server: the
report and failed-server lists and the snapshot total are untouched; the
failure counter equals the count of non-`NORMAL` snapshots; the emitted
anomaly records all carry this server's name and id and number exactly the
failure counter; the three counters sum to at most the snapshot count. -/
lemma classifyLoop_spec (srv : SrvW) (snaps : List Snapshot) (acc : ClassifyAcc) :
    (classifyLoop srv snaps acc).st.snapshot_report = acc.st.snapshot_report ∧
    (classifyLoop srv snaps acc).st.failed_servers = acc.st.failed_servers ∧
    (classifyLoop srv snaps acc).st.total_snapshots = acc.st.total_snapshots ∧
    (classifyLoop srv snaps acc).server_failed_snapshots
      = acc.server_failed_snapshots
        + snaps.countP (fun sn => decide (sn.state ≠ some "NORMAL")) ∧
    (∃ recs : List FailedSnapshot,
      (classifyLoop srv snaps acc).st.failed_snapshots = acc.st.failed_snapshots ++ recs ∧
      recs.length = snaps.countP (fun sn => decide (sn.state ≠ some "NORMAL")) ∧
      ∀ rec ∈ recs, rec.server = srv.name ∧ rec.server_id = srv.id) ∧
    (classifyLoop srv snaps acc).local_snapshot + (classifyLoop srv snaps acc).remote_snapshot
        + (classifyLoop srv snaps acc).server_failed_snapshots
      ≤ acc.local_snapshot + acc.remote_snapshot + acc.server_failed_snapshots + snaps.length := by
  induction snaps generalizing acc with
  | nil => simp [classifyLoop]
  | cons sn rest ih =>
    obtain ⟨hrep, hfsrv, htot, hsfs, ⟨recs, hfs, hlen, hmem⟩, hsum⟩ := ih (stepSnapshot srv acc sn)
    obtain ⟨srep, sfsrv, stot, ssfs, sfs, ssum⟩ := stepSnapshot_fields srv acc sn
    have hloop : classifyLoop srv (sn :: rest) acc = classifyLoop srv rest (stepSnapshot srv acc sn) := by
      simp [classifyLoop]
    rw [hloop]
    by_cases hbad : sn.state = some "NORMAL"
    · refine ⟨by rw [hrep, srep], by rw [hfsrv, sfsrv], by rw [htot, stot], ?_, ⟨recs, ?_, ?_, hmem⟩, ?_⟩
      · rw [hsfs, ssfs]; simp [hbad, List.countP_cons]
      · rw [hfs, sfs]; simp [hbad]
      · rw [hlen]; simp [hbad, List.countP_cons]
      · simp only [hbad] at ssfs sfs ssum
        simp only [List.length_cons]
        omega
    · refine ⟨by rw [hrep, srep], by rw [hfsrv, sfsrv], by rw [htot, stot], ?_, ?_, ?_⟩
      · rw [hsfs, ssfs]; simp [hbad, List.countP_cons]; omega
      · refine ⟨mkFailedSnapshot srv sn :: recs, ?_, ?_, ?_⟩
        · rw [hfs, sfs]; simp [hbad]
        · simp [hbad, List.countP_cons, hlen]
        · intro rec hrec
          rcases List.mem_cons.mp hrec with h | h
          · subst h; exact ⟨rfl, rfl⟩
          · exact hmem rec h
      · simp only [List.length_cons]
        omega

/-- Inversion of a successful `snapshot_report.append`: the resulting state
removes two candidate entries and appends exactly one row carrying the passed
counters. -/
lemma appendRow_ok_shape (srv : SrvW) (cnt f lo re : Nat) (st st' : RState)
    (h : appendRow srv cnt f lo re st = .ok st') :
    ∃ la ls rest,
      st' = { st with
              snapshot_dates := rest
              snapshot_report := st.snapshot_report ++
                [{ name := srv.name, id := srv.id, replication := srv.replication,
                   count := cnt, failed := f, local_snapshot := lo,
                   remote_snapshot := re, last := la, last_state := ls }] } := by
  unfold appendRow at h
  split at h
  · exact absurd h (by simp)
  · split at h
    · exact absurd h (by simp)
    · exact ⟨_, _, _, (Except.ok.inj h).symm⟩

/-- Projection form of `appendRow_ok_shape`. -/
lemma appendRow_ok_fields (srv : SrvW) (cnt f lo re : Nat) (st st' : RState)
    (h : appendRow srv cnt f lo re st = .ok st') :
    st'.failed_snapshots = st.failed_snapshots ∧
    ∃ la ls, st'.snapshot_report = st.snapshot_report ++
      [{ name := srv.name, id := srv.id, replication := srv.replication,
         count := cnt, failed := f, local_snapshot := lo,
         remote_snapshot := re, last := la, last_state := ls }] := by
  obtain ⟨la, ls, rest, hst'⟩ := appendRow_ok_shape srv cnt f lo re st st' h
  subst hst'
  exact ⟨rfl, la, ls, rfl⟩

/-- Unfolding of `processServer` on a server whose snapshot source returns a
snapshot list. -/
lemma processServer_some_eq (src : SnapSource) (st : RState) (srv : SrvW)
    (snaps : List Snapshot) (hsrc : src srv.id = Except.ok (some snaps)) :
    processServer src st srv =
      (match pySortByState (classifyLoop srv snaps
          ⟨0, 0, 0, { st with total_snapshots := st.total_snapshots + snaps.length }⟩).st.snapshot_dates with
      | .error e => .error e
      | .ok sorted =>
          appendRow srv snaps.length
            (classifyLoop srv snaps
              ⟨0, 0, 0, { st with total_snapshots := st.total_snapshots + snaps.length }⟩).server_failed_snapshots
            (classifyLoop srv snaps
              ⟨0, 0, 0, { st with total_snapshots := st.total_snapshots + snaps.length }⟩).local_snapshot
            (classifyLoop srv snaps
              ⟨0, 0, 0, { st with total_snapshots := st.total_snapshots + snaps.length }⟩).remote_snapshot
            { (classifyLoop srv snaps
                ⟨0, 0, 0, { st with total_snapshots := st.total_snapshots + snaps.length }⟩).st with
              snapshot_dates := sorted }) := by
  unfold processServer
  rw [hsrc]

/-- The server filter computed by the loop equals the spec's
`filter_eligible` contract. -/
lemma servers_w_snapshots_eq (servers : List Server) :
    servers_w_snapshots servers = filter_eligible servers := by
  have go : ∀ (ss : List Server) (acc : List SrvW),
      ss.foldl
        (fun acc server =>
          if server.snapshotService.isSome then
            acc ++ [{ name := server.name
                      id := server.id
                      replication :=
                        (server.snapshotService.bind
                          SnapshotService.replicationTargetDatacenterId).isSome
                      plan := server.snapshotService.bind SnapshotService.servicePlan
                      state := server.snapshotService.bind SnapshotService.state
                      family := (server.guest.bind Guest.operatingSystem).bind
                        OperatingSystem.family }]
          else acc) acc
        = acc ++ filter_eligible ss := by
    intro ss
    induction ss with
    | nil => intro acc; simp [filter_eligible]
    | cons s rest ih =>
      intro acc
      rw [List.foldl_cons, ih]
      cases h : s.snapshotService with
      | none => simp [filter_eligible, h]
      | some svc => simp [filter_eligible, h]
  simpa using go servers []

/-! Claim theorems. -/

/-- C1: the partition invariant fails on the code.  With two eligible
servers A (four healthy non-replica snapshots) and B (snapshot source returns
no data), the run produces report rows for A and B and a failed-server
record for B: B appears in both record sets, and rows plus failed records
number three while only two servers are eligible.  The `snapshot_report.append`
at line 228 sits outside the `else` of the `if snapshots is None` check and
consumes the leftover global candidate entries of A. -/
theorem c1_partition_failing_run :
    (runCore [srvA, srvB] c1src).map (fun rep =>
        (rep.snapshot_report.map ReportRow.id, rep.failed_servers.map FailedServer.id))
      = .ok ([some "A", some "B"], [some "B"])
    ∧ (servers_w_snapshots [srvA, srvB]).map SrvW.id = [some "A", some "B"] :=
  ⟨rfl, rfl⟩

/-- C2: the most-recent snapshot is not selected by greatest timestamp.  For
one server with non-replica candidates (timestamp 2023-03-01, state NORMAL)
and (timestamp 2023-01-01, state REQUESTED), line 227 sorts the candidate
pairs by state — `tmp_tuple[1]` — so the reported last timestamp is
2023-01-01, not the greatest timestamp 2023-03-01 the claim requires. -/
theorem c2_most_recent_selected_by_state :
    c2snaps.map Snapshot.startTime = [some "2023-03-01", some "2023-01-01"]
    ∧ c2snaps.map Snapshot.replica = [false, false]
    ∧ (runCore [srvA] c2src).map (fun rep =>
        rep.snapshot_report.map (fun row => (row.last, row.last_state)))
      = .ok [(some "2023-01-01", some "NORMAL")] :=
  ⟨rfl, rfl, rfl⟩

/-- C3: the candidate collection is not scoped per server.  Server A has four
healthy non-replica snapshots, server B has an empty snapshot list, yet the
run reports for B a most-recent timestamp 2023-01-02 — a leftover candidate
of A popped from the single global `snapshot_dates` list initialised at line
142 and never reset. -/
theorem c3_candidate_list_leaks_across_servers :
    c3src (some "B") = .ok (some [])
    ∧ (runCore [srvA, srvB] c3src).map (fun rep =>
        rep.snapshot_report.map (fun row => (row.id, row.count, row.last)))
      = .ok [(some "A", 4, some "2023-01-04"), (some "B", 0, some "2023-01-02")] :=
  ⟨rfl, rfl⟩

/-- C4: a retrieval failure does abort the run.  With a single eligible
server whose snapshot source returns no data, the code appends the N/A
failed-server record but then still executes the report append of line 228,
popping the empty candidate list: an uncaught `IndexError` aborts the whole
run instead of continuing to the next server. -/
theorem c4_retrieval_none_aborts_run :
    c4src (some "A") = .ok none
    ∧ runCore [srvA] c4src = .error .indexError :=
  ⟨rfl, rfl⟩

/-- C5: a server with no non-replica snapshots crashes classification.  With
a single server whose only snapshot is a replica, no candidate pair is ever
appended, and the pop at line 236 raises an uncaught `IndexError` — the run
aborts instead of reporting an absent most-recent value. -/
theorem c5_no_candidates_crash :
    ([replicaOnly].filter (fun sn => !sn.replica)) = []
    ∧ runCore [srvA] c5src = .error .indexError :=
  ⟨rfl, rfl⟩

/-- C6: the server filter equals the spec's `filter_eligible` contract: it
keeps exactly the servers whose snapshot-service descriptor is present, in
input order, derives `replication` as the presence of a non-null
replication-target-datacenter id inside the descriptor, copies plan, state
and OS family, and is total. -/
theorem c6_server_filter_refines_spec (servers : List Server) :
    servers_w_snapshots servers = filter_eligible servers :=
  servers_w_snapshots_eq servers

/-- C7 counterexample: a server whose descriptor has no plan, state or OS
family yields a derived record whose optional sub-fields are `none` — the
explicit absent value — not a string sentinel `unknown` as the claim
states. -/
theorem c7_counterexample_subfields_not_unknown :
    ∃ r, servers_w_snapshots [srvNoSub] = [r] ∧ r.plan = none ∧ r.state = none ∧
      r.family = none ∧ r.plan ≠ some "unknown" ∧ r.state ≠ some "unknown" ∧
      r.family ≠ some "unknown" :=
  ⟨recNoSub, by decide⟩

/-- C7 (amended): for every eligible server built by the server filter, each
missing optional sub-field — OS family, plan, or state, independently of the
others — is carried as the explicit absent value `none` in the derived
record, and never causes a failure. -/
theorem c7_missing_subfields_map_to_none (servers : List Server) (s : Server)
    (svc : SnapshotService) (hmem : s ∈ servers) (hsvc : s.snapshotService = some svc) :
    ∃ r ∈ servers_w_snapshots servers,
      r.id = s.id ∧
      (svc.servicePlan = none → r.plan = none) ∧
      (svc.state = none → r.state = none) ∧
      ((s.guest.bind Guest.operatingSystem).bind OperatingSystem.family = none
        → r.family = none) := by
  have hmem2 : ({ name := s.name, id := s.id,
                  replication := svc.replicationTargetDatacenterId.isSome,
                  plan := svc.servicePlan, state := svc.state,
                  family := (s.guest.bind Guest.operatingSystem).bind
                    OperatingSystem.family } : SrvW) ∈ filter_eligible servers := by
    apply List.mem_filterMap.mpr
    refine ⟨s, hmem, ?_⟩
    rw [hsvc]
    rfl
  rw [servers_w_snapshots_eq]
  exact ⟨_, hmem2, rfl, fun h => h, fun h => h, fun h => h⟩

/-- C7 witness: the amended statement evaluated on a concrete server whose
descriptor has a plan but no state, and whose guest OS information is
absent. -/
theorem c7_missing_subfields_map_to_none_witness :
    ∃ r ∈ servers_w_snapshots [srvPartial],
      r.id = srvPartial.id ∧
      (svcPartial.servicePlan = none → r.plan = none) ∧
      (svcPartial.state = none → r.state = none) ∧
      ((srvPartial.guest.bind Guest.operatingSystem).bind OperatingSystem.family = none
        → r.family = none) :=
  c7_missing_subfields_map_to_none [srvPartial] srvPartial svcPartial (by simp) rfl

/-- C8: a snapshot with type SYSTEM, replica true and state NORMAL
increments exactly the server's remote counter and the run-wide replica
total, and — the whole-accumulator equality showing `snapshot_dates`
untouched — is never added to the most-recent-candidate collection. -/
theorem c8_replica_accounting (srv : SrvW) (acc : ClassifyAcc) (snap : Snapshot)
    (htype : snap.type = some "SYSTEM") (hrep : snap.replica = true)
    (hstate : snap.state = some "NORMAL") :
    stepSnapshot srv acc snap
      = { acc with
          remote_snapshot := acc.remote_snapshot + 1
          st := { acc.st with
            total_replica_snapshots := acc.st.total_replica_snapshots + 1 } } := by
  simp [stepSnapshot, htype, hrep, hstate]

/-- C8 witness: the replica-accounting theorem evaluated on a concrete
healthy replica SYSTEM snapshot and the zero accumulator. -/
theorem c8_replica_accounting_witness :
    stepSnapshot wsrv c8acc c8snap
      = { c8acc with
          remote_snapshot := c8acc.remote_snapshot + 1
          st := { c8acc.st with
            total_replica_snapshots := c8acc.st.total_replica_snapshots + 1 } } :=
  c8_replica_accounting wsrv c8acc c8snap rfl rfl rfl

/-- C9: for every successfully classified server (snapshot source returned a
list and the per-server iteration succeeded), the appended report row
satisfies local + remote + failed ≤ count, its failed field equals the
number of non-NORMAL snapshots, and exactly that many anomaly records — all
carrying this server's name and id — were appended to the global
failed-snapshot list. -/
theorem c9_count_consistency (src : SnapSource) (st st' : RState) (srv : SrvW)
    (snaps : List Snapshot)
    (hsrc : src srv.id = Except.ok (some snaps))
    (hok : processServer src st srv = Except.ok st') :
    ∃ row : ReportRow,
      st'.snapshot_report = st.snapshot_report ++ [row] ∧
      row.count = snaps.length ∧
      row.local_snapshot + row.remote_snapshot + row.failed ≤ row.count ∧
      row.failed = snaps.countP (fun sn => decide (sn.state ≠ some "NORMAL")) ∧
      ∃ recs : List FailedSnapshot,
        st'.failed_snapshots = st.failed_snapshots ++ recs ∧
        recs.length = row.failed ∧
        ∀ rec ∈ recs, rec.server = srv.name ∧ rec.server_id = srv.id := by
  rw [processServer_some_eq src st srv snaps hsrc] at hok
  obtain ⟨hrep, hfsrv, htot, hsfs, ⟨recs, hfs, hlen, hmem⟩, hsum⟩ :=
    classifyLoop_spec srv snaps
      ⟨0, 0, 0, { st with total_snapshots := st.total_snapshots + snaps.length }⟩
  set C := classifyLoop srv snaps
      ⟨0, 0, 0, { st with total_snapshots := st.total_snapshots + snaps.length }⟩ with hC
  simp only at hrep hfsrv htot hsfs hfs hsum hlen
  split at hok
  · exact absurd hok (by simp)
  · obtain ⟨hfs', la, ls, hrep'⟩ := appendRow_ok_fields _ _ _ _ _ _ _ hok
    refine ⟨{ name := srv.name, id := srv.id, replication := srv.replication,
              count := snaps.length, failed := C.server_failed_snapshots,
              local_snapshot := C.local_snapshot, remote_snapshot := C.remote_snapshot,
              last := la, last_state := ls }, ?_, rfl, ?_, ?_, recs, ?_, ?_, hmem⟩
    · rw [hrep']; simp [hrep]
    · simpa using hsum
    · simpa using hsfs
    · rw [hfs']; simpa using hfs
    · simpa [hsfs] using hlen

/-- C9 witness: the count-consistency theorem evaluated on a concrete server
with one healthy and one failed snapshot. -/
theorem c9_count_consistency_witness :
    ∃ row : ReportRow,
      c9out.snapshot_report = initState.snapshot_report ++ [row] ∧
      row.count = c9snaps.length ∧
      row.local_snapshot + row.remote_snapshot + row.failed ≤ row.count ∧
      row.failed = c9snaps.countP (fun sn => decide (sn.state ≠ some "NORMAL")) ∧
      ∃ recs : List FailedSnapshot,
        c9out.failed_snapshots = initState.failed_snapshots ++ recs ∧
        recs.length = row.failed ∧
        ∀ rec ∈ recs, rec.server = wsrv.name ∧ rec.server_id = wsrv.id :=
  c9_count_consistency c9src initState c9out wsrv c9snaps rfl rfl

/-- C10: reading a server's most-recent value is two successive destructive
pops: whenever the candidate list ends with entries b then a, the appended
row takes its last timestamp from the final entry a and its last state from
the distinct preceding entry b, and both entries are removed from the
collection. -/
theorem c10_double_pop (srv : SrvW) (cnt f lo re : Nat) (st : RState)
    (rest : List (Option String × Option String)) (b a : Option String × Option String)
    (h : st.snapshot_dates = rest ++ [b, a]) :
    appendRow srv cnt f lo re st = .ok { st with
      snapshot_dates := rest
      snapshot_report := st.snapshot_report ++
        [{ name := srv.name, id := srv.id, replication := srv.replication,
           count := cnt, failed := f, local_snapshot := lo, remote_snapshot := re,
           last := a.1, last_state := b.2 }] } := by
  have h2 : st.snapshot_dates = (rest ++ [b]) ++ [a] := by
    rw [h]; simp
  unfold appendRow
  rw [h2]
  simp only [popLast_concat]

/-- C10 witness: the double-pop theorem evaluated on a concrete state with
two candidate entries: the row's timestamp comes from the second entry and
its state from the first. -/
theorem c10_double_pop_witness :
    appendRow wsrv 2 1 1 0 c10st = .ok { c10st with
      snapshot_dates := []
      snapshot_report := c10st.snapshot_report ++
        [{ name := wsrv.name, id := wsrv.id, replication := wsrv.replication,
           count := 2, failed := 1, local_snapshot := 1, remote_snapshot := 0,
           last := some "2023-01-02", last_state := some "NORMAL" }] } :=
  c10_double_pop wsrv 2 1 1 0 c10st []
    (some "2023-01-01", some "NORMAL") (some "2023-01-02", some "FAILED") rfl
